import Mathlib

/-!
Verification of the ChatNexus content-extraction-and-query pipeline
(`src/python.py`), shallowly embedded in Lean 4.

The program keeps per-session state: an optional extracted-content record, an
ordered message log, and an analytics record.  Two core functions wrap
external services: `extract_website_content` (fetch + parse a URL) and
`generate_response` (prompt a text-completion model).  The external services
are modelled as explicit oracle functions passed in as arguments; Python
exceptions raised by them are modelled as explicit `raises` constructors.
Python string slicing `s[:n]` operates on characters (code points), which in
Lean is `List.take n` on `String.data`; Python `len` on a string is the
character count, i.e. `String.length`.
-/

/-- The record built by `extract_website_content` (src/python.py:214-221):
keys `text`, `title`, `publish_date`, `top_image`, `length`, `timestamp`. -/
structure ExtractedContent where
  text : String
  title : String
  publish_date : Option String
  top_image : String
  length : Nat
  timestamp : String
  deriving Repr, DecidableEq

/-- A chat message: a dict with keys `role` and `content`
(src/python.py:313,318). -/
structure Message where
  role : String
  content : String
  deriving Repr, DecidableEq

/-- The `st.session_state.analytics` dict (src/python.py:260-264). -/
structure Analytics where
  total_questions : Nat
  websites_analyzed : Finset String
  last_activity : Option String
  deriving DecidableEq

/-- The whole per-session state (src/python.py:255-264). -/
structure SessionState where
  website_content : Option ExtractedContent
  messages : List Message
  analytics : Analytics
  deriving DecidableEq

/-- Initial session state (src/python.py:255-264): no content, empty log,
zero questions, no analyzed sites, no activity. -/
def initialState : SessionState :=
  { website_content := none
    messages := []
    analytics := { total_questions := 0, websites_analyzed := ∅, last_activity := none } }

/-- `clear_chat` (src/python.py:197-199): empties `messages` and zeroes
`total_questions`; everything else untouched. -/
def clear_chat (s : SessionState) : SessionState :=
  { s with
    messages := []
    analytics := { s.analytics with total_questions := 0 } }

/-- `reset_analysis` (src/python.py:201-205): clears `website_content`,
empties `messages`, zeroes `total_questions`, empties `websites_analyzed`;
`last_activity` untouched. -/
def reset_analysis (s : SessionState) : SessionState :=
  { s with
    website_content := none
    messages := []
    analytics := { s.analytics with total_questions := 0, websites_analyzed := ∅ } }

/-- Outcome of `Article(url); article.download(); article.parse()`:
either some step raises an exception, or it yields the parsed fields
`text`, `title`, `publish_date`, `top_image`. -/
inductive FetchResult where
  | raises
  | ok (text : String) (title : String) (publish_date : Option String) (top_image : String)

/-- Outcome of `model.generate_content(prompt)`: either the call raises, or
it returns a response whose `.text` is the given string. -/
inductive LLMResult where
  | raises
  | ok (text : String)

/-- `extract_website_content` (src/python.py:207-229).  The network/parse
oracle is `fetch`; `now` is the formatted `datetime.now()` string.  The
`try` block builds the content dict with `length = len(article.text)`, then
raises `ValueError` if `article.text` is falsy (empty); the `except` clause
turns any exception into `None`. -/
def extract_website_content (url : String) (fetch : String → FetchResult)
    (now : String) : Option ExtractedContent :=
  match fetch url with
  | FetchResult.raises => none
  | FetchResult.ok text title publish_date top_image =>
      let content : ExtractedContent :=
        { text := text, title := title, publish_date := publish_date,
          top_image := top_image, length := text.length, timestamp := now }
      if content.text = "" then none
      else some content

/-- `max_context_length` (src/python.py:234). -/
def max_context_length : Nat := 5000

/-- Python character slicing `s[:n]`: the first `n` characters of `s`. -/
def pySlice (s : String) (n : Nat) : String := String.mk (s.data.take n)

/-- `truncated_text` (src/python.py:235):
`website_text[:max_context_length] if len(website_text) > max_context_length
else website_text`. -/
def truncated_text (website_text : String) : String :=
  if website_text.length > max_context_length then pySlice website_text max_context_length
  else website_text

/-- Fixed template text of the prompt f-string before the context
(src/python.py:237-239). -/
def promptHead : String := "\n        Based on this website content:\n        "

/-- Fixed template text between the context and the question
(src/python.py:239-241). -/
def promptMid : String := "\n\n        Question: "

/-- Fixed template text after the question (src/python.py:241-246). -/
def promptTail : String :=
  "\n\n        Please provide a clear and comprehensive answer based on the website content.\n        Format your response with markdown for better readability.\n        If the content doesn\x27t contain relevant information, mention that and provide a general response.\n        "

/-- The prompt f-string of `generate_response` (src/python.py:237-246),
embedding the truncated context and the verbatim question. -/
def build_prompt (query website_text : String) : String :=
  promptHead ++ truncated_text website_text ++ promptMid ++ query ++ promptTail

/-- The fixed fallback string returned when the completion call raises
(src/python.py:252). -/
def fallback_message : String :=
  "I apologize, but I encountered an error while processing your request. Please try again."

/-- `generate_response` (src/python.py:231-252): builds the prompt, calls
the completion oracle `llm`, returns its text; any exception becomes the
fixed fallback string. -/
def generate_response (query website_text : String) (llm : String → LLMResult) : String :=
  match llm (build_prompt query website_text) with
  | LLMResult.raises => fallback_message
  | LLMResult.ok t => t

/-- The analyze-button handler (src/python.py:287-297): run
`extract_website_content`; on a (truthy) result store it, add the URL to
`websites_analyzed` and stamp `last_activity`; otherwise only an error
notice is shown and the state is untouched.  (The extracted dict always has
six keys, so Python truthiness of `content` coincides with `is not None`.) -/
def analyze_handler (url : String) (fetch : String → FetchResult) (now : String)
    (s : SessionState) : SessionState :=
  match extract_website_content url fetch now with
  | some content =>
      { s with
        website_content := some content
        analytics := { s.analytics with
          websites_analyzed := insert url s.analytics.websites_analyzed
          last_activity := some now } }
  | none => s

/-- The question handler (src/python.py:300-318).  The chat input exists
only under the gate `if st.session_state.website_content:`; when it fires it
increments `total_questions`, stamps `last_activity`, appends the user
message, calls `generate_response` on the stored content text, and appends
the assistant message.  When no content is stored the input is not rendered
and the state cannot change. -/
def ask_handler (question : String) (llm : String → LLMResult) (now : String)
    (s : SessionState) : SessionState :=
  match s.website_content with
  | none => s
  | some c =>
      { s with
        messages := s.messages ++
          [{ role := "user", content := question },
           { role := "assistant", content := generate_response question c.text llm }]
        analytics := { s.analytics with
          total_questions := s.analytics.total_questions + 1
          last_activity := some now } }

/-- Python truthiness of `st.session_state.website_content` at the chat
gate (src/python.py:300): `None` is falsy, the six-key content dict is
always truthy. -/
def content_truthy : Option ExtractedContent → Bool
  | none => false
  | some _ => true

/-- The chat-interface gate (src/python.py:300): questions can be asked
exactly when `content_truthy` holds of the stored content. -/
def chat_enabled (s : SessionState) : Bool := content_truthy s.website_content

/-- A user-triggered UI event, carrying the oracle outcomes of the external
calls it makes. -/
inductive Event where
  | analyze (url : String) (fetch : String → FetchResult) (now : String)
  | ask (question : String) (llm : String → LLMResult) (now : String)
  | clearChat
  | resetAnalysis

/-- Dispatch one UI event to its handler. -/
def stepEvent (s : SessionState) (e : Event) : SessionState :=
  match e with
  | Event.analyze url fetch now => analyze_handler url fetch now s
  | Event.ask question llm now => ask_handler question llm now s
  | Event.clearChat => clear_chat s
  | Event.resetAnalysis => reset_analysis s

/-- Run a sequence of UI events from a state. -/
def runEvents (s : SessionState) (es : List Event) : SessionState :=
  es.foldl stepEvent s

/-- An event is a reset-like action (clear chat or reset analysis). -/
def Event.isReset : Event → Bool
  | Event.clearChat => true
  | Event.resetAnalysis => true
  | _ => false

/-- Number of `ask` events in a sequence. -/
def countAsks : List Event → Nat
  | [] => 0
  | Event.ask _ _ _ :: es => countAsks es + 1
  | _ :: es => countAsks es

/-- The log is a sequence of user/assistant pairs: even length, roles
alternating `user`, `assistant`, starting with `user`. -/
def alternatesUA : List Message → Bool
  | [] => true
  | [_] => false
  | u :: a :: rest => u.role = "user" && a.role = "assistant" && alternatesUA rest

/-- Modelled from the spec (§3, §8): a successful extraction has occurred
since the last reset.  Folds over the event history: a successful analyze
sets the flag, "reset analysis" clears it, other events leave it. -/
def extractionSinceReset (b : Bool) : List Event → Bool
  | [] => b
  | Event.analyze url fetch now :: es =>
      extractionSinceReset (b || (extract_website_content url fetch now).isSome) es
  | Event.ask _ _ _ :: es => extractionSinceReset b es
  | Event.clearChat :: es => extractionSinceReset b es
  | Event.resetAnalysis :: es => extractionSinceReset false es

/-- Helper: the fold over events unrolls one step. -/
theorem runEvents_cons (s : SessionState) (e : Event) (es : List Event) :
    runEvents s (e :: es) = runEvents (stepEvent s e) es := rfl

/-- Helper: Python truthiness of the stored content coincides with
`Option.isSome`. -/
theorem content_truthy_isSome (o : Option ExtractedContent) :
    content_truthy o = o.isSome := by
  cases o <;> rfl

/-- Claim C1: for body text longer than 5000 characters the context embedded
in the prompt built by `generate_response` is exactly its first 5000
characters; for body text of length at most 5000 it is the body text
unchanged. -/
theorem prompt_context_truncation (q t : String) :
    (5000 < t.length →
      build_prompt q t
        = promptHead ++ String.mk (t.data.take 5000) ++ promptMid ++ q ++ promptTail) ∧
    (t.length ≤ 5000 →
      build_prompt q t = promptHead ++ t ++ promptMid ++ q ++ promptTail) := by
  constructor
  · intro h
    simp [build_prompt, truncated_text, pySlice, max_context_length, h]
  · intro h
    have hle : ¬ t.length > max_context_length := by
      simp [max_context_length]
      omega
    simp [build_prompt, truncated_text, hle]

/-- Witness for C1 at a 5001-character body text and at a 2-character one. -/
theorem prompt_context_truncation_witness :
    (build_prompt "q" (String.mk (List.replicate 5001 'a'))
        = promptHead ++ String.mk ((String.mk (List.replicate 5001 'a')).data.take 5000)
            ++ promptMid ++ "q" ++ promptTail) ∧
    (build_prompt "q" "ab" = promptHead ++ "ab" ++ promptMid ++ "q" ++ promptTail) :=
  ⟨(prompt_context_truncation "q" (String.mk (List.replicate 5001 'a'))).1
      (by
        show 5000 < (List.replicate 5001 'a').length
        rw [List.length_replicate]
        norm_num),
   (prompt_context_truncation "q" "ab").2 (by decide)⟩

/-- Claim C2: when the fetch/parse yields non-empty text,
`extract_website_content` returns a record whose `length` field equals the
character count of its `text` field, and that text is non-empty. -/
theorem extract_length_exact (url now text title : String) (pd : Option String)
    (ti : String) (fetch : String → FetchResult)
    (hok : fetch url = FetchResult.ok text title pd ti) (hne : text ≠ "") :
    ∃ c : ExtractedContent,
      extract_website_content url fetch now = some c ∧
        c.length = c.text.length ∧ c.text ≠ "" := by
  refine ⟨{ text := text, title := title, publish_date := pd, top_image := ti,
            length := text.length, timestamp := now }, ?_, rfl, hne⟩
  simp [extract_website_content, hok, hne]

/-- Witness for C2 on a mock fetch returning "hello world". -/
theorem extract_length_exact_witness :
    ∃ c : ExtractedContent,
      extract_website_content "https://example.com/article"
          (fun _ => FetchResult.ok "hello world" "T" none "") "2026-10-12 00:00:00"
        = some c ∧ c.length = c.text.length ∧ c.text ≠ "" :=
  extract_length_exact "https://example.com/article" "2026-10-12 00:00:00"
    "hello world" "T" none ""
    (fun _ => FetchResult.ok "hello world" "T" none "") rfl (by decide)

/-- Claim C3: when the fetch raises or yields empty text,
`extract_website_content` returns the failure signal `none`, and the analyze
handler leaves the previously stored content unchanged. -/
theorem extract_failure_content_unchanged (url now : String)
    (fetch : String → FetchResult) (s : SessionState)
    (h : fetch url = FetchResult.raises ∨
         ∃ title pd ti, fetch url = FetchResult.ok "" title pd ti) :
    extract_website_content url fetch now = none ∧
      (analyze_handler url fetch now s).website_content = s.website_content := by
  have hnone : extract_website_content url fetch now = none := by
    rcases h with h | ⟨title, pd, ti, h⟩
    · simp [extract_website_content, h]
    · simp [extract_website_content, h]
  exact ⟨hnone, by simp [analyze_handler, hnone]⟩

/-- Witness for C3 on a raising fetch. -/
theorem extract_failure_content_unchanged_witness :
    extract_website_content "https://bad.example" (fun _ => FetchResult.raises)
        "2026-10-12 00:00:00" = none ∧
      (analyze_handler "https://bad.example" (fun _ => FetchResult.raises)
          "2026-10-12 00:00:00" initialState).website_content
        = initialState.website_content :=
  extract_failure_content_unchanged "https://bad.example" "2026-10-12 00:00:00"
    (fun _ => FetchResult.raises) initialState (Or.inl rfl)

/-- Claim C4: when the completion call raises, `generate_response` returns
the fixed fallback string, and the question handler still increments
`total_questions` and still appends both the user message and the fallback
assistant message. -/
theorem generation_failure_fallback (question now : String)
    (llm : String → LLMResult) (s : SessionState) (c : ExtractedContent)
    (hc : s.website_content = some c)
    (herr : llm (build_prompt question c.text) = LLMResult.raises) :
    generate_response question c.text llm = fallback_message ∧
      (ask_handler question llm now s).analytics.total_questions
        = s.analytics.total_questions + 1 ∧
      (ask_handler question llm now s).messages
        = s.messages ++
            [{ role := "user", content := question },
             { role := "assistant", content := fallback_message }] := by
  have hg : generate_response question c.text llm = fallback_message := by
    simp [generate_response, herr]
  exact ⟨hg, by simp [ask_handler, hc], by simp [ask_handler, hc, hg]⟩

/-- A concrete extracted-content record used to instantiate theorems. -/
def sampleContent : ExtractedContent :=
  { text := "body", title := "T", publish_date := none, top_image := "",
    length := 4, timestamp := "2026-10-12 00:00:00" }

/-- A concrete session state holding `sampleContent` and one logged pair. -/
def sampleState : SessionState :=
  { website_content := some sampleContent
    messages := [{ role := "user", content := "hi" },
                 { role := "assistant", content := "hello" }]
    analytics := { total_questions := 1, websites_analyzed := {"https://example.com"},
                   last_activity := some "2026-10-12 00:00:00" } }

/-- Witness for C4 on an always-raising completion oracle. -/
theorem generation_failure_fallback_witness :
    generate_response "q" sampleContent.text (fun _ => LLMResult.raises)
        = fallback_message ∧
      (ask_handler "q" (fun _ => LLMResult.raises) "2026-10-12 00:01:00"
          sampleState).analytics.total_questions
        = sampleState.analytics.total_questions + 1 ∧
      (ask_handler "q" (fun _ => LLMResult.raises) "2026-10-12 00:01:00"
          sampleState).messages
        = sampleState.messages ++
            [{ role := "user", content := "q" },
             { role := "assistant", content := fallback_message }] :=
  generation_failure_fallback "q" "2026-10-12 00:01:00" (fun _ => LLMResult.raises)
    sampleState sampleContent rfl rfl

/-- Claim C5: from every prior state, `reset_analysis` yields no stored
content, an empty message log, zero `total_questions`, and an empty
`websites_analyzed` set. -/
theorem reset_analysis_spec (s : SessionState) :
    (reset_analysis s).website_content = none ∧
      (reset_analysis s).messages = [] ∧
      (reset_analysis s).analytics.total_questions = 0 ∧
      (reset_analysis s).analytics.websites_analyzed = ∅ :=
  ⟨rfl, rfl, rfl, rfl⟩

/-- Claim C6: `clear_chat` on a state with `total_questions = K` and a
non-empty log yields zero questions and an empty log, leaving
`websites_analyzed` and the stored content unchanged. -/
theorem clear_chat_spec (s : SessionState) (K : Nat)
    (hK : s.analytics.total_questions = K) (hm : s.messages ≠ []) :
    (clear_chat s).analytics.total_questions = 0 ∧
      (clear_chat s).messages = [] ∧
      (clear_chat s).analytics.websites_analyzed = s.analytics.websites_analyzed ∧
      (clear_chat s).website_content = s.website_content :=
  ⟨rfl, rfl, rfl, rfl⟩

/-- Witness for C6 on `sampleState` (one logged pair, one question). -/
theorem clear_chat_spec_witness :
    (clear_chat sampleState).analytics.total_questions = 0 ∧
      (clear_chat sampleState).messages = [] ∧
      (clear_chat sampleState).analytics.websites_analyzed
        = sampleState.analytics.websites_analyzed ∧
      (clear_chat sampleState).website_content = sampleState.website_content :=
  clear_chat_spec sampleState 1 rfl (by simp [sampleState])

/-- Claim C9: a failed extraction leaves `websites_analyzed` and
`last_activity` unchanged as well; the URL of a failed analysis is never
added to `websites_analyzed`. -/
theorem extract_failure_analytics_frame (url now : String)
    (fetch : String → FetchResult) (s : SessionState)
    (h : extract_website_content url fetch now = none) :
    (analyze_handler url fetch now s).analytics.websites_analyzed
        = s.analytics.websites_analyzed ∧
      (analyze_handler url fetch now s).analytics.last_activity
        = s.analytics.last_activity ∧
      (url ∉ s.analytics.websites_analyzed →
        url ∉ (analyze_handler url fetch now s).analytics.websites_analyzed) := by
  have hid : analyze_handler url fetch now s = s := by
    simp [analyze_handler, h]
  exact ⟨by rw [hid], by rw [hid], fun hu => by rw [hid]; exact hu⟩

/-- Witness for C9 on a raising fetch from the initial state. -/
theorem extract_failure_analytics_frame_witness :
    (analyze_handler "https://bad.example" (fun _ => FetchResult.raises)
          "2026-10-12 00:00:00" initialState).analytics.websites_analyzed
        = initialState.analytics.websites_analyzed ∧
      (analyze_handler "https://bad.example" (fun _ => FetchResult.raises)
          "2026-10-12 00:00:00" initialState).analytics.last_activity
        = initialState.analytics.last_activity ∧
      ("https://bad.example" ∉ initialState.analytics.websites_analyzed →
        "https://bad.example" ∉ (analyze_handler "https://bad.example"
            (fun _ => FetchResult.raises) "2026-10-12 00:00:00"
            initialState).analytics.websites_analyzed) :=
  extract_failure_analytics_frame "https://bad.example" "2026-10-12 00:00:00"
    (fun _ => FetchResult.raises) initialState rfl

/-- Claim C10: both `clear_chat` and `reset_analysis` leave the
`last_activity` timestamp unchanged, for every prior state. -/
theorem clear_reset_preserve_last_activity (s : SessionState) :
    (clear_chat s).analytics.last_activity = s.analytics.last_activity ∧
      (reset_analysis s).analytics.last_activity = s.analytics.last_activity :=
  ⟨rfl, rfl⟩

/-- Every `ask` event in the sequence fires from a state where the chat
gate (src/python.py:300) is open. -/
def asksEnabled : SessionState → List Event → Prop
  | _, [] => True
  | s, e :: es =>
      (∀ q llm now, e = Event.ask q llm now → chat_enabled s = true) ∧
        asksEnabled (stepEvent s e) es

/-- Helper for C7: running reset-free events whose asks are all enabled
appends one alternating user/assistant pair per ask and adds one to
`total_questions` per ask. -/
theorem ask_run_aux (es : List Event) : ∀ s : SessionState,
    (∀ e ∈ es, e.isReset = false) → asksEnabled s es →
    (runEvents s es).analytics.total_questions
        = s.analytics.total_questions + countAsks es ∧
      ∃ tail : List Message,
        (runEvents s es).messages = s.messages ++ tail ∧
          tail.length = 2 * countAsks es ∧ alternatesUA tail = true := by
  induction es with
  | nil =>
      intro s _ _
      exact ⟨rfl, [], by simp [runEvents], rfl, rfl⟩
  | cons e es ih =>
      intro s hnr hen
      obtain ⟨henHead, henTail⟩ := hen
      have hnrTail : ∀ e' ∈ es, e'.isReset = false :=
        fun e' he' => hnr e' (List.mem_cons_of_mem _ he')
      rw [runEvents_cons]
      cases e with
      | analyze url fetch now =>
          obtain ⟨h1, tail, h2, h3, h4⟩ :=
            ih (stepEvent s (Event.analyze url fetch now)) hnrTail henTail
          have hm : (stepEvent s (Event.analyze url fetch now)).messages = s.messages := by
            cases hx : extract_website_content url fetch now with
            | none => simp [stepEvent, analyze_handler, hx]
            | some c => simp [stepEvent, analyze_handler, hx]
          have hq : (stepEvent s (Event.analyze url fetch now)).analytics.total_questions
              = s.analytics.total_questions := by
            cases hx : extract_website_content url fetch now with
            | none => simp [stepEvent, analyze_handler, hx]
            | some c => simp [stepEvent, analyze_handler, hx]
          refine ⟨?_, tail, ?_, h3, h4⟩
          · rw [h1, hq]
            rfl
          · rw [h2, hm]
      | ask q llm now =>
          have hgate : chat_enabled s = true := henHead q llm now rfl
          obtain ⟨c, hc⟩ : ∃ c, s.website_content = some c := by
            cases hsc : s.website_content with
            | none => simp [chat_enabled, content_truthy, hsc] at hgate
            | some c => exact ⟨c, rfl⟩
          have hstep : stepEvent s (Event.ask q llm now) =
              { s with
                messages := s.messages ++
                  [{ role := "user", content := q },
                   { role := "assistant", content := generate_response q c.text llm }]
                analytics := { s.analytics with
                  total_questions := s.analytics.total_questions + 1
                  last_activity := some now } } := by
            simp [stepEvent, ask_handler, hc]
          obtain ⟨h1, tail, h2, h3, h4⟩ :=
            ih (stepEvent s (Event.ask q llm now)) hnrTail henTail
          refine ⟨?_,
            { role := "user", content := q } ::
              { role := "assistant", content := generate_response q c.text llm } :: tail,
            ?_, ?_, ?_⟩
          · rw [h1, hstep]
            show s.analytics.total_questions + 1 + countAsks es
                = s.analytics.total_questions + countAsks (Event.ask q llm now :: es)
            show s.analytics.total_questions + 1 + countAsks es
                = s.analytics.total_questions + (countAsks es + 1)
            omega
          · rw [h2, hstep]
            simp
          · simp only [List.length_cons, h3, countAsks]
            omega
          · simp [alternatesUA, h4]
      | clearChat =>
          have := hnr Event.clearChat (List.mem_cons_self _ _)
          simp [Event.isReset] at this
      | resetAnalysis =>
          have := hnr Event.resetAnalysis (List.mem_cons_self _ _)
          simp [Event.isReset] at this

/-- Claim C7: from a fresh post-reset state, after any reset-free event
sequence whose asks are all enabled, `total_questions` equals the number of
asks N and the message log is exactly 2N entries alternating user then
assistant, starting with user. -/
theorem question_sequence_invariant (s0 : SessionState) (es : List Event)
    (hnr : ∀ e ∈ es, e.isReset = false)
    (hen : asksEnabled (reset_analysis s0) es) :
    (runEvents (reset_analysis s0) es).analytics.total_questions = countAsks es ∧
      (runEvents (reset_analysis s0) es).messages.length = 2 * countAsks es ∧
      alternatesUA (runEvents (reset_analysis s0) es).messages = true := by
  obtain ⟨h1, tail, h2, h3, h4⟩ := ask_run_aux es (reset_analysis s0) hnr hen
  refine ⟨?_, ?_, ?_⟩
  · rw [h1]
    show 0 + countAsks es = countAsks es
    omega
  · rw [h2]
    show ([] ++ tail : List Message).length = 2 * countAsks es
    simpa using h3
  · rw [h2]
    show alternatesUA ([] ++ tail) = true
    simpa using h4

/-- The concrete event sequence for the C7 witness: one successful analyze
followed by one question. -/
def sampleEvents : List Event :=
  [Event.analyze "https://example.com/article"
      (fun _ => FetchResult.ok "hello world" "T" none "") "2026-10-12 00:00:00",
   Event.ask "What is this about?" (fun _ => LLMResult.ok "An article.")
      "2026-10-12 00:01:00"]

/-- Witness for C7: one analyze then one ask from the reset initial state. -/
theorem question_sequence_invariant_witness :
    (runEvents (reset_analysis initialState) sampleEvents).analytics.total_questions
        = countAsks sampleEvents ∧
      (runEvents (reset_analysis initialState) sampleEvents).messages.length
        = 2 * countAsks sampleEvents ∧
      alternatesUA (runEvents (reset_analysis initialState) sampleEvents).messages
        = true := by
  refine question_sequence_invariant initialState sampleEvents ?_ ?_
  · intro e he
    simp only [sampleEvents, List.mem_cons, List.not_mem_nil, or_false] at he
    rcases he with h | h <;> rw [h] <;> rfl
  · refine ⟨?_, ?_, trivial⟩
    · intro q llm now h
      exact Event.noConfusion h
    · intro q llm now h
      rfl

/-- Helper for C8: whether content is stored after a run is the fold of the
"successful extraction since last reset" flag over the events. -/
theorem content_isSome_run (es : List Event) : ∀ s : SessionState,
    (runEvents s es).website_content.isSome
      = extractionSinceReset s.website_content.isSome es := by
  induction es with
  | nil => intro s; rfl
  | cons e es ih =>
      intro s
      cases e with
      | analyze url fetch now =>
          rw [runEvents_cons, ih]
          have hb : (stepEvent s (Event.analyze url fetch now)).website_content.isSome
              = (s.website_content.isSome
                  || (extract_website_content url fetch now).isSome) := by
            cases hx : extract_website_content url fetch now with
            | none => simp [stepEvent, analyze_handler, hx]
            | some c => simp [stepEvent, analyze_handler, hx]
          rw [hb]
          rfl
      | ask q llm now =>
          rw [runEvents_cons, ih]
          have hb : (stepEvent s (Event.ask q llm now)).website_content
              = s.website_content := by
            cases hx : s.website_content with
            | none => simp [stepEvent, ask_handler, hx]
            | some c => simp [stepEvent, ask_handler, hx]
          rw [hb]
          rfl
      | clearChat => rw [runEvents_cons, ih]; rfl
      | resetAnalysis => rw [runEvents_cons, ih]; rfl

/-- Claim C8: in every state reachable from the initial state, the stored
content is `none` exactly when no successful extraction has occurred since
the last reset, and the chat gate is open if and only if content is
stored. -/
theorem reachable_content_invariant (es : List Event) :
    ((runEvents initialState es).website_content = none ↔
        extractionSinceReset false es = false) ∧
      chat_enabled (runEvents initialState es)
        = (runEvents initialState es).website_content.isSome := by
  have h : (runEvents initialState es).website_content.isSome
      = extractionSinceReset false es := content_isSome_run es initialState
  refine ⟨⟨fun hn => ?_, fun hf => ?_⟩, content_truthy_isSome _⟩
  · rw [← h, hn]
    rfl
  · have hs : (runEvents initialState es).website_content.isSome = false := h.trans hf
    cases hopt : (runEvents initialState es).website_content with
    | none => rfl
    | some c =>
        rw [hopt] at hs
        exact absurd hs (by simp)
